import Mathlib

/-!
# Verification of the twitter-poll streaming pipeline

Shallow embedding of the two Go source files of `olawolu/twitter-poll`
(`src/twitter.go` and `src/main.go`) and proofs about the embedded
definitions.  Stateful code is modelled by explicit state passing; the
network and the signal delivery are modelled as oracle inputs; straight-line
goroutine bodies are modelled as the sequence of observable actions they
perform, in program order.
-/

/-! ## Stream Reader matching loop (`src/twitter.go`, `readFromTwitter`, lines 129-147)

For each decoded tweet the Go code runs
`for _, option := range options { if strings.Contains(strings.ToLower(t.Text), strings.ToLower(option)) { votes <- option } }`.
`strings.ToLower` lower-cases every rune; `strings.Contains s sub` tests
whether `sub` occurs as a contiguous substring of `s`. -/

/-- `strings.ToLower` applied to the characters of a string: each character is
lower-cased individually. -/
def lowerChars (s : String) : List Char :=
  s.data.map Char.toLower

/-- `strings.Contains s sub`: `sub` occurs as a contiguous substring of `s`
(both already given as character lists). -/
def strContains (s sub : List Char) : Bool :=
  decide (sub <:+: s)

/-- The inner matching loop of `readFromTwitter` (src/twitter.go:138-146) on a
single decoded record: iterate over `options` in order and emit one vote
(the matched option string) for each option whose lower-cased form occurs in
the lower-cased tweet text. -/
def processRecord (options : List String) (text : String) : List String :=
  match options with
  | [] => []
  | option :: rest =>
    if strContains (lowerChars text) (lowerChars option) then
      option :: processRecord rest text
    else
      processRecord rest text

/-- The match predicate of one loop iteration. -/
def optionMatches (text option : String) : Bool :=
  strContains (lowerChars text) (lowerChars option)

theorem processRecord_eq_filter (options : List String) (text : String) :
    processRecord options text = options.filter (fun o => optionMatches text o) := by
  induction options with
  | nil => rfl
  | cons o rest ih =>
    by_cases h : strContains (lowerChars text) (lowerChars o)
    · simp [processRecord, List.filter_cons, optionMatches, h, ih]
    · simp [processRecord, List.filter_cons, optionMatches, h, ih]

/-- Claim C1: for every filter term list `F` (duplicates allowed, possibly
empty) and every decoded record text, the matching loop emits exactly the
sub-list of terms of `F` whose lower-cased form is a substring of the
lower-cased text, one vote per matching term counted with multiplicity, each
vote carrying the matched term; hence the number of emitted votes is the
count of matching terms, a record matching no term yields no vote, and the
spec's concrete scenario holds. -/
theorem C1_match_per_term : (∀ (options : List String) (text : String),
    processRecord options text = options.filter (fun o => optionMatches text o) ∧
    (processRecord options text).length =
      options.countP (fun o => optionMatches text o)) ∧
    processRecord ["cats", "dogs"] "I love cats and dogs" = ["cats", "dogs"] ∧
    processRecord ["cats", "dogs"] "no pets here" = [] := by
  refine ⟨fun options text => ⟨processRecord_eq_filter options text, ?_⟩, by decide, by decide⟩
  rw [processRecord_eq_filter]
  exact (List.countP_eq_length_filter _ _).symm

/-! ## Connection Lifecycle Manager (`src/twitter.go`, lines 24-62, 124-126)

The package-level variables `conn net.Conn` and `reader io.ReadCloser` are
modelled as optional handles in a global state; `nil` is `none`.  Calling a
method on a `nil` value is a runtime panic, modelled with `Except`.  Every
`Close()` invocation is recorded (by handle id) in a close log so that the
theorems can speak about which handles actually got closed; the `error`
returned by Go's `Close` (non-nil when the handle was already closed) is
produced but discarded by the callers, exactly as the Go code discards it. -/

structure Handle where
  id : Nat
  closed : Bool
deriving DecidableEq, Repr

inductive PanicErr
  | nilDeref
deriving DecidableEq, Repr

structure GState where
  conn : Option Handle
  reader : Option Handle
  closeLog : List Nat
deriving DecidableEq, Repr

/-- The Go statement `x.Close()` on a possibly-nil reference: panics on nil,
otherwise marks the handle closed, records the close in the log and returns
the (discarded) `error` flag, true when the handle was already closed. -/
def goClose (h : Option Handle) (log : List Nat) :
    Except PanicErr (Handle × Bool × List Nat) :=
  match h with
  | none => Except.error PanicErr.nilDeref
  | some c => Except.ok ({ c with closed := true }, c.closed, log ++ [c.id])

/-- `closeConn` (src/twitter.go:55-62): `if conn != nil { conn.Close() };
if reader != nil { reader.Close() }`.  Both `Close` errors are discarded and
the function itself returns nothing. -/
def closeConn (s : GState) : Except PanicErr GState :=
  match
    (if s.conn.isSome then
      match goClose s.conn s.closeLog with
      | Except.error e => Except.error e
      | Except.ok (c, _err, log) => Except.ok { s with conn := some c, closeLog := log }
    else Except.ok s : Except PanicErr GState) with
  | Except.error e => Except.error e
  | Except.ok s1 =>
    if s1.reader.isSome then
      match goClose s1.reader s1.closeLog with
      | Except.error e => Except.error e
      | Except.ok (r, _err, log) => Except.ok { s1 with reader := some r, closeLog := log }
    else Except.ok s1

/-- `dial` (src/twitter.go:33-44): `if conn != nil { conn.Close(); conn = nil };
netc, err := net.DialTimeout(...); if err != nil { return nil, err };
conn = netc; return netc, nil`.  The network outcome is an oracle input:
`none` models a dial error, `some h` a fresh connection handle. -/
def dial (s : GState) (outcome : Option Handle) :
    Except PanicErr (GState × Option Handle) :=
  match
    (if s.conn.isSome then
      match goClose s.conn s.closeLog with
      | Except.error e => Except.error e
      | Except.ok (_c, _err, log) => Except.ok { s with conn := none, closeLog := log }
    else Except.ok s : Except PanicErr GState) with
  | Except.error e => Except.error e
  | Except.ok s1 =>
    match outcome with
    | none => Except.ok (s1, none)
    | some h => Except.ok ({ s1 with conn := some h }, some h)

/-- Line 125 of src/twitter.go, `reader := resp.Body`: the `:=` declares a NEW
LOCAL variable named `reader` that shadows the package-level `reader`, so the
global state is left unchanged; the local (second component) holds the
response body. -/
def openBodyReader (s : GState) (body : Handle) : GState × Handle :=
  (s, body)

theorem closeConn_ok (s : GState) : ∃ s1, closeConn s = Except.ok s1 := by
  obtain ⟨conn, reader, log⟩ := s
  cases conn <;> cases reader <;> simp [closeConn, goClose]

/-- Claim C2: the spec says `forceClose` closes the open response-body reader,
and the code's own comment (src/twitter.go:51-53) says the same; but line 125
writes `reader := resp.Body`, declaring a local that shadows the package-level
`reader`, so the global stays nil and `closeConn` never closes the body.
Run: fresh state, successful dial of connection handle 1, response body
handle 2 opened for decoding, then `closeConn`: only handle 1 is closed,
handle 2 never appears in the close log. -/
theorem C2_body_reader_never_closed :
    dial { conn := none, reader := none, closeLog := [] }
        (some { id := 1, closed := false }) =
      Except.ok ({ conn := some { id := 1, closed := false }, reader := none,
                   closeLog := [] }, some { id := 1, closed := false }) ∧
    openBodyReader
        { conn := some { id := 1, closed := false }, reader := none, closeLog := [] }
        { id := 2, closed := false } =
      ({ conn := some { id := 1, closed := false }, reader := none, closeLog := [] },
        { id := 2, closed := false }) ∧
    closeConn { conn := some { id := 1, closed := false }, reader := none, closeLog := [] } =
      Except.ok { conn := some { id := 1, closed := true }, reader := none, closeLog := [1] } ∧
    (({ conn := some { id := 1, closed := true }, reader := none,
        closeLog := [1] } : GState).closeLog.contains 2) = false :=
  ⟨rfl, rfl, rfl, rfl⟩

/-- Claim C8: from every manager state, calling `closeConn` twice in succession
with no intervening dial produces no error (no panic, and the discarded
`Close` errors never escape) on either call; in particular on the state with
no connection and no reader open it is a no-op without failure. -/
theorem C8_forceClose_twice_no_error : (∀ s : GState, ∃ s1 s2,
    closeConn s = Except.ok s1 ∧ closeConn s1 = Except.ok s2) ∧
    closeConn { conn := none, reader := none, closeLog := [] } =
      Except.ok { conn := none, reader := none, closeLog := [] } := by
  refine ⟨fun s => ?_, rfl⟩
  obtain ⟨s1, h1⟩ := closeConn_ok s
  obtain ⟨s2, h2⟩ := closeConn_ok s1
  exact ⟨s1, s2, h1, h2⟩

/-- Claim C10: every call to `dial` first closes and untracks any previously
tracked connection (its id is appended to the close log before the attempt);
when the dial attempt fails the call returns no handle and no connection is
tracked, so a subsequent `closeConn` closes no connection — it is a no-op
when no reader is open, and closes only the reader otherwise. -/
theorem C10_dial_failure_atomic : ∀ (s : GState) (out : Option Handle), ∃ s' r,
    dial s out = Except.ok (s', r) ∧
    (∀ c, s.conn = some c → s'.closeLog = s.closeLog ++ [c.id]) ∧
    (s.conn = none → s'.closeLog = s.closeLog) ∧
    (out = none → r = none ∧ s'.conn = none ∧
      (s'.reader = none → closeConn s' = Except.ok s') ∧
      (∀ rd, s'.reader = some rd → closeConn s' =
        Except.ok { s' with reader := some { rd with closed := true },
                            closeLog := s'.closeLog ++ [rd.id] })) ∧
    (∀ h, out = some h → r = some h ∧ s'.conn = some h) := by
  intro s out
  obtain ⟨conn, reader, log⟩ := s
  cases conn with
  | none =>
    cases out with
    | none =>
      cases reader with
      | none =>
        refine ⟨_, _, rfl, ?_, ?_, ?_, ?_⟩
        · exact fun c hc => Option.noConfusion hc
        · exact fun _ => rfl
        · exact fun _ => ⟨rfl, rfl, fun _ => rfl, fun rd hrd => Option.noConfusion hrd⟩
        · exact fun h hh => Option.noConfusion hh
      | some rd0 =>
        refine ⟨_, _, rfl, ?_, ?_, ?_, ?_⟩
        · exact fun c hc => Option.noConfusion hc
        · exact fun _ => rfl
        · refine fun _ => ⟨rfl, rfl, fun hn => Option.noConfusion hn, fun rd hrd => ?_⟩
          obtain rfl : rd0 = rd := Option.some.inj hrd
          rfl
        · exact fun h hh => Option.noConfusion hh
    | some h0 =>
      refine ⟨_, _, rfl, ?_, ?_, ?_, ?_⟩
      · exact fun c hc => Option.noConfusion hc
      · exact fun _ => rfl
      · exact fun hn => Option.noConfusion hn
      · refine fun h₂ hh => ?_
        obtain rfl : h0 = h₂ := Option.some.inj hh
        exact ⟨rfl, rfl⟩
  | some c0 =>
    cases out with
    | none =>
      cases reader with
      | none =>
        refine ⟨_, _, rfl, ?_, ?_, ?_, ?_⟩
        · refine fun c hc => ?_
          obtain rfl : c0 = c := Option.some.inj hc
          rfl
        · exact fun hn => Option.noConfusion hn
        · exact fun _ => ⟨rfl, rfl, fun _ => rfl, fun rd hrd => Option.noConfusion hrd⟩
        · exact fun h hh => Option.noConfusion hh
      | some rd0 =>
        refine ⟨_, _, rfl, ?_, ?_, ?_, ?_⟩
        · refine fun c hc => ?_
          obtain rfl : c0 = c := Option.some.inj hc
          rfl
        · exact fun hn => Option.noConfusion hn
        · refine fun _ => ⟨rfl, rfl, fun hn => Option.noConfusion hn, fun rd hrd => ?_⟩
          obtain rfl : rd0 = rd := Option.some.inj hrd
          rfl
        · exact fun h hh => Option.noConfusion hh
    | some h0 =>
      refine ⟨_, _, rfl, ?_, ?_, ?_, ?_⟩
      · refine fun c hc => ?_
        obtain rfl : c0 = c := Option.some.inj hc
        rfl
      · exact fun hn => Option.noConfusion hn
      · exact fun hn => Option.noConfusion hn
      · refine fun h₂ hh => ?_
        obtain rfl : h0 = h₂ := Option.some.inj hh
        exact ⟨rfl, rfl⟩

/-- Witness for C10 at a concrete state: a tracked connection (id 5) and an
open reader (id 7), failed dial: the old connection is closed and untracked,
no handle is returned. -/
theorem C10_dial_failure_atomic_witness : ∃ s' r,
    dial { conn := some { id := 5, closed := false },
           reader := some { id := 7, closed := false }, closeLog := [] } none =
      Except.ok (s', r) ∧ s'.closeLog = [5] ∧ s'.conn = none ∧ r = none := by
  obtain ⟨s', r, hd, hsome, _, hfail, _⟩ :=
    C10_dial_failure_atomic
      { conn := some { id := 5, closed := false },
        reader := some { id := 7, closed := false }, closeLog := [] } none
  obtain ⟨hr, hc, _⟩ := hfail rfl
  exact ⟨s', r, hd, by simpa using hsome { id := 5, closed := false } rfl, hc, hr⟩

/-! ## Periodic Refresher (`src/main.go`, lines 99-110)

The refresher goroutine runs `for { time.Sleep(1 * time.Minute); closeConn();
stoplock.Lock(); if stop { stoplock.Unlock(); return }; stoplock.Unlock() }`:
on each wake it calls `closeConn` first and checks the stop flag afterwards.
The flag is written by the shutdown goroutine, so its value at each wake is an
oracle input. -/

/-- Number of `closeConn` invocations the refresher performs from wake `k` on,
observing at most `fuel` wakes, when `stopAt j` is the value of the `stop`
flag read (under the lock) at wake `j`: each wake performs one forced close,
then exits permanently when the flag reads true. -/
def refresherCloses (stopAt : Nat → Bool) (k : Nat) : Nat → Nat
  | 0 => 0
  | fuel + 1 => 1 + (if stopAt k then 0 else refresherCloses stopAt (k + 1) fuel)

theorem refresherCloses_stop_from (m : Nat) : ∀ (fuel k : Nat),
    refresherCloses (fun j => decide (m ≤ j)) k fuel = min (max (m + 1 - k) 1) fuel := by
  intro fuel
  induction fuel with
  | zero => intro k; simp [refresherCloses]
  | succ f ih =>
    intro k
    by_cases h : m ≤ k
    · simp only [refresherCloses]
      rw [if_pos (by simpa using h)]
      omega
    · simp only [refresherCloses]
      rw [if_neg (by simpa using h), ih (k + 1)]
      omega

/-- Claim C3 counterexample: with the stop flag already true before the
refresher's next wake, that wake still performs one forced close (the code
calls `closeConn` before checking the flag), where the claim demands zero. -/
theorem C3_counterexample : refresherCloses (fun _ => true) 0 1 = 1 := by decide

/-- Claim C3 amended: while StopState is false the refresher performs exactly
one forced close per elapsed interval, and after StopState becomes true it
performs exactly one further forced close (on its next wake, whose
`closeConn` precedes the flag check) and then exits permanently: with the flag
first true at wake `m`, over any number of elapsed intervals `fuel` the total
number of forced closes is `min (m + 1) fuel`. -/
theorem C3_amended_one_close_per_interval (m fuel : Nat) :
    refresherCloses (fun j => decide (m ≤ j)) 0 fuel = min (m + 1) fuel := by
  rw [refresherCloses_stop_from m fuel 0]
  omega

/-- Witness for C3 amended at `m := 2`, `fuel := 5`: wakes 0 and 1 see the
flag false, wake 2 sees it true; three closes in total. -/
theorem C3_amended_one_close_per_interval_witness :
    refresherCloses (fun j => decide (2 ≤ j)) 0 5 = 3 := by
  rw [C3_amended_one_close_per_interval 2 5]
  decide

/-! ## Shutdown Coordinator (`src/main.go`, lines 80-88)

The shutdown-listener goroutine blocks on `<-signalChan` and then runs, in
program order: `stoplock.Lock(); stop = true; stoplock.Unlock();
log.Println("Stopping..."); stopChan <- struct{}{}; closeConn()`. -/

inductive ShutdownStep
  | lockStop
  | setStopTrue
  | unlockStop
  | notifyStopChan
  | callCloseConn
deriving DecidableEq, Repr

/-- The observable actions of the shutdown listener after signal receipt
(src/main.go:82-87), in program order (the log line is not an action on
shared state and is omitted). -/
def shutdownSteps : List ShutdownStep :=
  [ShutdownStep.lockStop, ShutdownStep.setStopTrue, ShutdownStep.unlockStop,
   ShutdownStep.notifyStopChan, ShutdownStep.callCloseConn]

/-- Claim C4 counterexample: the single send on the stop-notification channel
(position 3) happens strictly before the single `closeConn` call (position 4),
whereas the claim requires the notification only after `forceClose`. -/
theorem C4_counterexample :
    shutdownSteps.findIdx (· == ShutdownStep.notifyStopChan) = 3 ∧
    shutdownSteps.findIdx (· == ShutdownStep.callCloseConn) = 4 ∧
    shutdownSteps.count ShutdownStep.notifyStopChan = 1 ∧
    shutdownSteps.count ShutdownStep.callCloseConn = 1 := by decide

/-- Claim C4 amended: on receipt of the cancellation signal the coordinator
first sets StopState to true under the guarding lock, then sends the
notification on the Stream Reader's buffered stop channel, and only after
that invokes `forceClose`; each step occurs exactly once. -/
theorem C4_amended_order :
    shutdownSteps.findIdx (· == ShutdownStep.lockStop) <
      shutdownSteps.findIdx (· == ShutdownStep.setStopTrue) ∧
    shutdownSteps.findIdx (· == ShutdownStep.setStopTrue) <
      shutdownSteps.findIdx (· == ShutdownStep.unlockStop) ∧
    shutdownSteps.findIdx (· == ShutdownStep.unlockStop) <
      shutdownSteps.findIdx (· == ShutdownStep.notifyStopChan) ∧
    shutdownSteps.findIdx (· == ShutdownStep.notifyStopChan) <
      shutdownSteps.findIdx (· == ShutdownStep.callCloseConn) ∧
    shutdownSteps.count ShutdownStep.lockStop = 1 ∧
    shutdownSteps.count ShutdownStep.setStopTrue = 1 ∧
    shutdownSteps.count ShutdownStep.unlockStop = 1 ∧
    shutdownSteps.count ShutdownStep.notifyStopChan = 1 ∧
    shutdownSteps.count ShutdownStep.callCloseConn = 1 := by decide

/-! ## Event Publisher and final drain (`src/main.go`, lines 58-74 and 111-113)

`publishVotes` starts a goroutine running `for vote := range votes {
pub.Publish("votes", []byte(vote)) }` — the `error` returned by `Publish` is
discarded on line 66 (no logging, no retry, no break) — followed by
`pub.Stop()` and a send on its stopped channel.  `main` then runs
`<-twitterStoppedChan; close(votes); <-publisherStoppedChan` in order.
Whether the sink fails a given publish is an oracle input; the sequence of
votes the channel delivers before closure is the queue argument. -/

inductive PubAction
  | publish (vote : String) (failed : Bool)
  | logSinkErr (vote : String)
  | stopSink
  | signalStopped
deriving DecidableEq, Repr

/-- The publisher goroutine body (src/main.go:64-72) as the sequence of
actions it performs when the votes channel delivers `queue` and is then
closed: one publish attempt per received vote (its discarded error is
`sinkFails vote`), then the sink is stopped and the stopped channel
signalled.  No `logSinkErr` action ever occurs because line 66 drops the
`Publish` error. -/
def publisherRun (sinkFails : String → Bool) : List String → List PubAction
  | [] => [PubAction.stopSink, PubAction.signalStopped]
  | v :: rest => PubAction.publish v (sinkFails v) :: publisherRun sinkFails rest

/-- The vote attempted by a publish action, if any. -/
def pubActionVote : PubAction → Option String
  | PubAction.publish v _ => some v
  | _ => none

/-- Whether an action logs a sink error. -/
def isSinkErrLog : PubAction → Bool
  | PubAction.logSinkErr _ => true
  | _ => false

theorem filterMap_vote_map (f : String → Bool) (queue : List String) :
    (queue.map (fun v => PubAction.publish v (f v))).filterMap pubActionVote = queue := by
  induction queue with
  | nil => rfl
  | cons v rest ih => simp [List.filterMap_cons, pubActionVote, ih]

theorem publisherRun_eq (f : String → Bool) (queue : List String) :
    publisherRun f queue =
      queue.map (fun v => PubAction.publish v (f v)) ++
        [PubAction.stopSink, PubAction.signalStopped] := by
  induction queue with
  | nil => rfl
  | cons v rest ih => simp [publisherRun, ih]

inductive MainStep
  | awaitTwitterStopped
  | closeVotesChan
  | awaitPublisherStopped
deriving DecidableEq, Repr

/-- The final statements of `main` (src/main.go:111-113) in program order:
wait for the Stream Reader's stopped signal, close the votes channel, wait
for the Publisher's stopped signal. -/
def mainFinalSteps : List MainStep :=
  [MainStep.awaitTwitterStopped, MainStep.closeVotesChan, MainStep.awaitPublisherStopped]

/-- Claim C5: `main` closes the vote queue only after awaiting the Stream
Reader's stopped signal and awaits the Publisher's stopped signal only after
closing the queue; and for every sink behaviour and every queue content
pending at closure, the Publisher's run ends with the stopped signal as its
last action and the publish attempts occurring before that signal are exactly
the pending events, so all of them (e.g. all 3 of the scenario) are forwarded
before stopped is reported. -/
theorem C5_drain_order : (mainFinalSteps.findIdx (· == MainStep.awaitTwitterStopped) <
      mainFinalSteps.findIdx (· == MainStep.closeVotesChan) ∧
    mainFinalSteps.findIdx (· == MainStep.closeVotesChan) <
      mainFinalSteps.findIdx (· == MainStep.awaitPublisherStopped)) ∧
    (∀ (sinkFails : String → Bool) (queue : List String),
      (publisherRun sinkFails queue).getLast? = some PubAction.signalStopped ∧
      (publisherRun sinkFails queue).dropLast.filterMap pubActionVote = queue) ∧
    ((publisherRun (fun _ => false) ["a", "b", "c"]).dropLast.filterMap pubActionVote).length = 3 := by
  refine ⟨⟨by decide, by decide⟩, fun f queue => ?_, by decide⟩
  have h2 : publisherRun f queue =
      (queue.map (fun v => PubAction.publish v (f v)) ++ [PubAction.stopSink]) ++
        [PubAction.signalStopped] := by
    rw [publisherRun_eq]; simp
  constructor
  · rw [h2, List.getLast?_concat]
  · rw [h2, List.dropLast_concat, List.filterMap_append, filterMap_vote_map]
    simp [pubActionVote]

/-- Claim C7 counterexample: with a sink that fails every publish, the run on
queue `["a", "b"]` is exactly two failed publish attempts followed by the
stop/stopped actions — the failure of "a" produces no `logSinkErr` action
anywhere in the trace (line 66 of src/main.go discards the `Publish` error),
contradicting the claim that sink failures are logged; the loop did continue
to "b" as claimed. -/
theorem C7_counterexample :
    publisherRun (fun _ => true) ["a", "b"] =
      [PubAction.publish "a" true, PubAction.publish "b" true,
       PubAction.stopSink, PubAction.signalStopped] ∧
    (publisherRun (fun _ => true) ["a", "b"]).filter isSinkErrLog = [] := by
  exact ⟨rfl, rfl⟩

/-- Claim C7 amended: a failure returned by the sink's publish operation is
silently discarded — it is never logged, never retried (exactly one attempt
per queued event, in order), and never stops the Publisher's loop or the
process: whatever the sink does, the run attempts every queued event exactly
once and still ends with the stopped signal. -/
theorem C7_amended_fire_and_forget : ∀ (sinkFails : String → Bool) (queue : List String),
    (publisherRun sinkFails queue).filter isSinkErrLog = [] ∧
    (publisherRun sinkFails queue).filterMap pubActionVote = queue ∧
    (publisherRun sinkFails queue).getLast? = some PubAction.signalStopped := by
  intro f queue
  refine ⟨?_, ?_, ?_⟩
  · rw [publisherRun_eq, List.filter_append]
    have h1 : (queue.map (fun v => PubAction.publish v (f v))).filter isSinkErrLog = [] := by
      induction queue with
      | nil => rfl
      | cons v rest ih => simp [List.filter_cons, isSinkErrLog, ih]
    rw [h1]
    rfl
  · rw [publisherRun_eq, List.filterMap_append, filterMap_vote_map]
    simp [pubActionVote]
  · have h2 : publisherRun f queue =
        (queue.map (fun v => PubAction.publish v (f v)) ++ [PubAction.stopSink]) ++
          [PubAction.signalStopped] := by
      rw [publisherRun_eq]; simp
    rw [h2, List.getLast?_concat]

/-! ## Startup order and one-time auth setup (`src/main.go` 75-110,
`src/twitter.go` 64-87 and 150-160)

`main` wires everything up and starts the goroutines; no credential or client
setup happens there.  `setupTwitterAuth` is reached only through the
`authSetUpOnce.Do` guard at the top of `makeRequest`, which itself runs
inside `readFromTwitter` in the stream-reader goroutine — i.e. on the first
outbound request, after every task has been started. -/

inductive MainEvent
  | spawnShutdownListener
  | registerSignals
  | dialDatabase
  | spawnPublisher
  | spawnStreamReader
  | spawnRefresher
  | authSetup
deriving DecidableEq, Repr

/-- The actions `main` (src/main.go:75-110) performs, in program order, up to
the point where it blocks on `<-twitterStoppedChan`; starting a goroutine is
one action.  `authSetup` (running `setupTwitterAuth` plus HTTP-client
construction) appears nowhere here: no line of `main` reaches it. -/
def mainStartupSteps : List MainEvent :=
  [MainEvent.spawnShutdownListener, MainEvent.registerSignals, MainEvent.dialDatabase,
   MainEvent.spawnPublisher, MainEvent.spawnStreamReader, MainEvent.spawnRefresher]

structure OnceState where
  authDone : Bool
  setupCalls : Nat
deriving DecidableEq, Repr

/-- The `authSetUpOnce.Do(...)` guard at the top of `makeRequest`
(src/twitter.go:152-160): the first call runs the setup closure
(`setupTwitterAuth` and the HTTP-client construction) exactly once; every
later call is a no-op. -/
def makeRequestOnce (s : OnceState) : OnceState :=
  if s.authDone then s else { authDone := true, setupCalls := s.setupCalls + 1 }

structure TwitterEnv where
  consumerKey : Option String
  consumerSecret : Option String
  accessToken : Option String
  accessSecret : Option String

structure OAuthCreds where
  token : String
  secret : String
deriving DecidableEq, Repr

/-- `setupTwitterAuth` (src/twitter.go:64-87): decode the four required
environment variables; when any is missing `envdecode.Decode` returns an
error and `log.Fatalln` aborts the process (modelled as `none`), otherwise
the access credentials and the consumer credentials of the auth client are
stored (modelled as the returned pair). -/
def setupTwitterAuth (e : TwitterEnv) : Option (OAuthCreds × OAuthCreds) :=
  match e.consumerKey, e.consumerSecret, e.accessToken, e.accessSecret with
  | some ck, some cs, some tok, some sec =>
      some ({ token := tok, secret := sec }, { token := ck, secret := cs })
  | _, _, _, _ => none

/-- Claim C6 counterexample: process startup performs no credential/client
setup at all (no `authSetup` among `main`'s actions), while the first
`makeRequest` call is what performs it, through the once-guard; so setup —
and the fatal abort on missing credentials, here with all four variables
absent — happens lazily on the first request, after the tasks have started,
not during startup as claimed. -/
theorem C6_counterexample :
    mainStartupSteps.filter (· == MainEvent.authSetup) = [] ∧
    makeRequestOnce { authDone := false, setupCalls := 0 } =
      { authDone := true, setupCalls := 1 } ∧
    setupTwitterAuth { consumerKey := none, consumerSecret := none,
                       accessToken := none, accessSecret := none } = none := by
  exact ⟨by decide, by decide, rfl⟩

theorem makeRequestOnce_iterate (n : Nat) :
    makeRequestOnce^[n] { authDone := false, setupCalls := 0 } =
      if n = 0 then { authDone := false, setupCalls := 0 }
      else { authDone := true, setupCalls := 1 } := by
  induction n with
  | zero => rfl
  | succ k ih =>
    rw [Function.iterate_succ_apply', ih]
    cases k with
    | zero => rfl
    | succ _ => rfl

/-- Claim C6 amended: credential and client setup is performed lazily, by the
`sync.Once` guard on the first `makeRequest` call — not during process
startup, where no setup action occurs — and runs exactly once no matter how
many requests follow; `setupTwitterAuth` aborts the process fatally exactly
when one of the four required environment variables is missing, which
therefore happens at the first request attempt, after the tasks have
started. -/
theorem C6_amended_lazy_once :
    (∀ n : Nat, (makeRequestOnce^[n] { authDone := false, setupCalls := 0 }).setupCalls =
      min n 1) ∧
    mainStartupSteps.filter (· == MainEvent.authSetup) = [] ∧
    (∀ e : TwitterEnv, (setupTwitterAuth e).isNone =
      (e.consumerKey.isNone || e.consumerSecret.isNone ||
       e.accessToken.isNone || e.accessSecret.isNone)) := by
  refine ⟨fun n => ?_, by decide, fun e => ?_⟩
  · rw [makeRequestOnce_iterate]
    cases n with
    | zero => rfl
    | succ k => simp
  · obtain ⟨a, b, c, d⟩ := e
    cases a <;> cases b <;> cases c <;> cases d <;> rfl

/-! ## Outbound filter request (`src/twitter.go`, lines 100-118 and 161-165)

`readFromTwitter` builds a fresh `url.Values` per iteration with the single
field `track` set to the comma-joined current options, creates a POST to the
streaming endpoint whose body is `query.Encode()`, and `makeRequest` sets
Content-Type, Content-Length and the Authorization header produced by
`authClient.AuthorizationHeader(creds, "POST", req.URL, params)` with the
same `query`.  The oauth signer is external and modelled as an oracle of the
method, the URL and the parameters. -/

/-- Upper-case hexadecimal digit, as produced by Go's percent-encoding. -/
def hexDigit (n : Nat) : Char :=
  if n < 10 then Char.ofNat (48 + n) else Char.ofNat (55 + n)

/-- The characters `url.QueryEscape` leaves unescaped: ASCII letters, digits
and `-`, `_`, `.`, `~`. -/
def isUnreservedChar (c : Char) : Bool :=
  (65 ≤ c.toNat && c.toNat ≤ 90) || (97 ≤ c.toNat && c.toNat ≤ 122) ||
  (48 ≤ c.toNat && c.toNat ≤ 57) || c == '-' || c == '_' || c == '.' || c == '~'

/-- `url.QueryEscape`: unreserved characters are kept, a space becomes `+`,
every other character becomes `%XX` per byte (for the ASCII range modelled
here one character is one byte). -/
def queryEscape (s : String) : String :=
  ⟨(s.data.map fun c =>
      if c == ' ' then ['+']
      else if isUnreservedChar c then [c]
      else ['%', hexDigit (c.toNat % 256 / 16), hexDigit (c.toNat % 16)]).flatten⟩

/-- `url.Values` in the only shape this program builds: an association list
of key/value pairs. -/
abbrev Values := List (String × String)

/-- `url.Values.Set` (net/url): replace whatever is stored under `k` by the
single value `v`. -/
def valuesSet (q : Values) (k v : String) : Values :=
  q.filter (fun p => p.1 != k) ++ [(k, v)]

/-- `url.Values.Encode` (net/url): `escape(k)=escape(v)` pairs joined by `&`.
(Go iterates the keys in sorted order; this program only ever stores the
single key `track`, for which the iteration order is immaterial.) -/
def encodeValues : Values → String
  | [] => ""
  | [p] => queryEscape p.1 ++ "=" ++ queryEscape p.2
  | p :: q => queryEscape p.1 ++ "=" ++ queryEscape p.2 ++ "&" ++ encodeValues q

structure Request where
  method : String
  url : String
  body : String
  headers : List (String × String)
deriving DecidableEq, Repr

/-- `http.Header.Set`: replace the value of header `k`. -/
def headerSet (hs : List (String × String)) (k v : String) : List (String × String) :=
  hs.filter (fun p => p.1 != k) ++ [(k, v)]

/-- `http.Header.Get`: the value stored for header `k`, if any. -/
def headerGet (hs : List (String × String)) (k : String) : Option String :=
  (hs.find? fun p => p.1 == k).map Prod.snd

/-- The streaming endpoint URL (src/twitter.go:100). -/
def streamURL : String := "https://stream.twitter.com/1.1/statuses/filter.json"

/-- The header-setting part of `makeRequest` (src/twitter.go:161-165): encode
the params, set Content-Type and Content-Length, and set Authorization to
`signer method url params` — the oauth `AuthorizationHeader(creds, "POST",
req.URL, params)` call, with the signer abstract. -/
def makeRequestHeaders (signer : String → String → Values → String)
    (req : Request) (params : Values) : Request :=
  let formEnc := encodeValues params
  let req1 := { req with
    headers := headerSet req.headers "Content-Type" "application/x-www-form-urlencoded" }
  let req2 := { req1 with
    headers := headerSet req1.headers "Content-Length" (toString formEnc.length) }
  { req2 with
    headers := headerSet req2.headers "Authorization" (signer "POST" req.url params) }

/-- The request construction of one `readFromTwitter` iteration
(src/twitter.go:106-118): a fresh `url.Values` whose single field `track` is
the comma-joined current options, a POST to the streaming endpoint whose body
is the encoded values, passed to `makeRequest` with the same `query`. -/
def buildFilterRequest (signer : String → String → Values → String)
    (options : List String) : Request :=
  let query := valuesSet [] "track" (String.intercalate "," options)
  let req : Request := { method := "POST", url := streamURL,
                         body := encodeValues query, headers := [] }
  makeRequestHeaders signer req query

/-- Claim C9: each iteration builds one POST request to the streaming
endpoint whose `application/x-www-form-urlencoded` body is the single field
`track` holding all current terms joined by commas, whose Authorization
header is the signer applied to method POST, the request URL and those same
parameters; and an attempt made with different terms encodes the new terms
(the body for terms `["beta"]` is `track=beta`, not `track=alpha`). -/
theorem C9_request_encoding : ∀ (signer : String → String → Values → String)
    (options : List String),
    (buildFilterRequest signer options).method = "POST" ∧
    (buildFilterRequest signer options).url = streamURL ∧
    (buildFilterRequest signer options).body =
      "track=" ++ queryEscape (String.intercalate "," options) ∧
    headerGet (buildFilterRequest signer options).headers "Content-Type" =
      some "application/x-www-form-urlencoded" ∧
    headerGet (buildFilterRequest signer options).headers "Authorization" =
      some (signer "POST" streamURL [("track", String.intercalate "," options)]) ∧
    (buildFilterRequest signer ["alpha"]).body = "track=alpha" ∧
    (buildFilterRequest signer ["beta"]).body = "track=beta" := by
  intro signer options
  exact ⟨rfl, rfl, rfl, rfl, rfl, rfl, rfl⟩
